import Mathlib

/-!
Verification of the focalboard real-time synchronization subsystem spec
against the repository sources (server/server/server.go and
webapp/src/components/kanban/kanbanCard.tsx).  Code of the repository that
is not present under the sources (scheduler internals, session store,
client-side mutator) is modelled from the spec, as marked in doc comments.
-/

namespace Focalboard

/-! ## Session cleanup max-age (Server.Start, server.go) -/

/-- Fixed floor of 31 days in seconds, the initial value of the local
variable secondsAgo in the cleanUpSessions closure inside Server.Start. -/
def sessionCleanupFloorSeconds : Int := 60 * 60 * 24 * 31

/-- The max-age value the cleanUpSessions closure in Server.Start passes to
store.CleanUpSessions: secondsAgo starts at the 31-day floor and is raised
to cfg.SessionExpireTime when the floor is smaller. -/
def cleanUpSessionsMaxAge (sessionExpireTime : Int) : Int :=
  let secondsAgo := sessionCleanupFloorSeconds
  if secondsAgo < sessionExpireTime then sessionExpireTime else secondsAgo

/-! ## Session store cleanup (modelled from the spec) -/

/-- A session record, from the data model of the spec. -/
structure Session where
  id : String
  userId : String
  token : String
  createAt : Int
  expiresAt : Int
deriving DecidableEq, Repr

/-- Modelled from the spec: store.CleanUpSessions is not under the sources;
the spec says it deletes all sessions whose age exceeds max_age and leaves
younger sessions untouched.  The age of a session at instant now is
now - createAt. -/
def cleanUpSessions (now maxAge : Int) (sessions : List Session) : List Session :=
  sessions.filter (fun s => decide (now - s.createAt ≤ maxAge))

/-! ## KanbanCard rendering (kanbanCard.tsx) -/

/-- A card block as consumed by the KanbanCard component. -/
structure Card where
  id : String
  title : String
  icon : String
deriving DecidableEq, Repr

/-- Mutator calls reachable from the options menu of a kanban card. -/
inductive MenuAction where
  | deleteBlock (cardId : String) (description : String)
  | duplicateCard (cardId : String)
deriving DecidableEq, Repr

/-- One entry of the options menu rendered by KanbanCard. -/
structure MenuEntry where
  id : String
  name : String
  action : MenuAction
deriving DecidableEq, Repr

/-- The props of the KanbanCard component that affect its rendered shape. -/
structure KanbanCardProps where
  card : Card
  isSelected : Bool
  readonly : Bool
deriving DecidableEq, Repr

/-- The rendered shape of a KanbanCard: whether the drag-and-drop ref is
attached, the class name, the draggable attribute, the options menu (none
when not rendered) and the shown title. -/
structure KanbanCardView where
  refAttached : Bool
  className : String
  opacityReduced : Bool
  draggable : Bool
  optionsMenu : Option (List MenuEntry)
  titleShown : String
deriving DecidableEq, Repr

/-- The render function of KanbanCard from kanbanCard.tsx.  isOver and
isDragging are the drag-and-drop monitor flags.  The ref is attached only
when not readonly, draggable is the negation of readonly, and the options
menu (with its Delete and Duplicate entries wired to mutator.deleteBlock
and mutator.duplicateCard) is rendered only when not readonly. -/
def kanbanCard (p : KanbanCardProps) (isOver isDragging : Bool) : KanbanCardView :=
  let base := if p.isSelected then "KanbanCard selected" else "KanbanCard"
  let cls := if isOver then base ++ " dragover" else base
  { refAttached := !p.readonly
    className := cls
    opacityReduced := isDragging
    draggable := !p.readonly
    optionsMenu :=
      if p.readonly then none
      else some
        [ { id := "delete", name := "Delete"
            action := MenuAction.deleteBlock p.card.id "delete card" }
        , { id := "duplicate", name := "Duplicate"
            action := MenuAction.duplicateCard p.card.id } ]
    titleShown := if p.card.title = "" then "Untitled" else p.card.title }

/-- All mutator actions a user could trigger from the rendered card. -/
def triggerableActions (v : KanbanCardView) : List MenuAction :=
  match v.optionsMenu with
  | none => []
  | some entries => entries.map (fun e => e.action)

/-! ## Scheduler (modelled from the spec) -/

/-- Modelled from the spec: the Scheduler service is not under the sources.
A recurring task as produced by CreateRecurringTask: a diagnostic name, the
tick interval, and the instant at which Cancel was first called (none while
the task is live).  Time is discrete, in the same unit as the interval. -/
structure RecurringTask where
  name : String
  interval : Nat
  cancelledAt : Option Nat
deriving DecidableEq, Repr

/-- Modelled from the spec: CreateRecurringTask(name, fn, interval) starts
a live (uncancelled) task. -/
def createRecurringTask (name : String) (interval : Nat) : RecurringTask :=
  { name := name, interval := interval, cancelledAt := none }

/-- Modelled from the spec: TaskHandle.Cancel stops future ticks and is
idempotent; only the first call at instant c is recorded. -/
def cancelTask (t : RecurringTask) (c : Nat) : RecurringTask :=
  match t.cancelledAt with
  | none => { t with cancelledAt := some c }
  | some _ => t

/-- Modelled from the spec: the instant at which the k-th invocation of fn
begins.  The first invocation begins after one full interval; each later
invocation begins one full interval after the previous invocation ran to
completion (durations gives each run's duration), so runs never overlap. -/
def runStart (interval : Nat) (durations : Nat → Nat) : Nat → Nat
  | 0 => interval
  | k + 1 => runStart interval durations k + durations k + interval

/-- The instant at which the k-th invocation of fn completes. -/
def runEnd (interval : Nat) (durations : Nat → Nat) (k : Nat) : Nat :=
  runStart interval durations k + durations k

/-- Modelled from the spec: whether the k-th invocation of fn actually
begins: every invocation begins when the task is never cancelled, and no
invocation begins at or after the instant Cancel was called. -/
def runExecutes (t : RecurringTask) (durations : Nat → Nat) (k : Nat) : Prop :=
  match t.cancelledAt with
  | none => True
  | some c => runStart t.interval durations k < c

instance (t : RecurringTask) (durations : Nat → Nat) (k : Nat) :
    Decidable (runExecutes t durations k) := by
  unfold runExecutes
  exact match t.cancelledAt with
  | none => inferInstanceAs (Decidable True)
  | some c => inferInstanceAs (Decidable (_ < c))

/-- The interval Server.Start passes to CreateRecurringTask for the
cleanUpSessions task: 10 minutes, here in seconds. -/
def cleanUpSessionsTaskInterval : Nat := 10 * 60

/-- The log message emitted by the cleanUpSessions closure when
store.CleanUpSessions fails. -/
def sessionCleanupLogMessage : String := "Unable to clean up the sessions"

/-- The body of the cleanUpSessions task from Server.Start: it computes the
max age, invokes store.CleanUpSessions (whose outcome is the function
storeCleanUp), and on error only appends a log entry.  The remaining server
state st (of any type σ) is passed through untouched and the body always
returns a value (it never propagates the error). -/
def cleanUpSessionsTaskFn {σ : Type} (sessionExpireTime : Int)
    (storeCleanUp : Int → Except String Unit)
    (st : σ) (logs : List String) : σ × List String :=
  let secondsAgo := cleanUpSessionsMaxAge sessionExpireTime
  match storeCleanUp secondsAgo with
  | Except.ok _ => (st, logs)
  | Except.error _ => (st, logs ++ [sessionCleanupLogMessage])

/-! ## Startup aggregate counts and the activity tracker (New, server.go) -/

/-- The four aggregate counts fetched during New. -/
structure AggregateCounts where
  registeredUserCount : Int
  dailyActiveUsers : Int
  weeklyActiveUsers : Int
  monthlyActiveUsers : Int
deriving DecidableEq, Repr

/-- The four startup reads of New from server.go.  Each count is fetched in
series through a freshly constructed application handle (a separate
appBuilder() call per query), so the k-th query observes the store state at
its own instant k; store gives the store state at each instant. -/
def newStartupCounts (store : Nat → AggregateCounts) : AggregateCounts :=
  { registeredUserCount := (store 0).registeredUserCount
    dailyActiveUsers := (store 1).dailyActiveUsers
    weeklyActiveUsers := (store 2).weeklyActiveUsers
    monthlyActiveUsers := (store 3).monthlyActiveUsers }

/-- The activity telemetry tracker registered by New: a closure over the
four values read at startup — its type shows it takes no store access. -/
def activityTracker (store : Nat → AggregateCounts) : Unit → AggregateCounts :=
  fun _ => newStartupCounts store

/-! ## Shutdown (Server.Shutdown, server.go) -/

/-- The externally visible actions Server.Shutdown can perform. -/
inductive ShutdownEvent where
  | webServerShutdown
  | stopLocalModeServer
  | cancelCleanUpSessionsTask
  | telemetryShutdown
  | storeShutdown
deriving DecidableEq, Repr

/-- Server.Shutdown from server.go as the sequence of actions it performs
and the error it returns: it shuts down the web server and returns that
error early when it fails; otherwise it stops the local-mode server,
cancels the cleanUpSessions task only when the handle is non-nil, shuts
down telemetry, and returns the result of shutting down the store. -/
def serverShutdown (webServerErr : Option String)
    (cleanUpSessionsTask : Option RecurringTask)
    (storeErr : Option String) : List ShutdownEvent × Option String :=
  match webServerErr with
  | some e => ([ShutdownEvent.webServerShutdown], some e)
  | none =>
    ([ShutdownEvent.webServerShutdown, ShutdownEvent.stopLocalModeServer]
      ++ (match cleanUpSessionsTask with
          | some _ => [ShutdownEvent.cancelCleanUpSessionsTask]
          | none => [])
      ++ [ShutdownEvent.telemetryShutdown, ShutdownEvent.storeShutdown],
     storeErr)

/-! ## Telemetry initialisation in New (server.go) -/

/-- The outcomes of the startup store queries New performs for telemetry:
the system settings (a total lookup, as a Go map yields the empty string
for a missing key), the SetSystemSetting write for a fresh telemetry id,
and the four aggregate-count queries, each through a fresh appBuilder()
call. -/
structure StartupQueryResults where
  getSystemSettings : Except String (String → String)
  setSystemSetting : Except String Unit
  getRegisteredUserCount : Except String Int
  getDailyActiveUsers : Except String Int
  getWeeklyActiveUsers : Except String Int
  getMonthlyActiveUsers : Except String Int

/-- The part of the Server built by the telemetry section of New: the names
of the registered telemetry trackers and the captured activity counts. -/
structure NewServerModel where
  trackers : List String
  activityCounts : AggregateCounts
deriving DecidableEq, Repr

/-- The telemetry initialisation part of New from server.go: reads the
system settings, writes a fresh telemetry id when none is stored, fetches
the four aggregate counts in series, and only then registers the server,
config and activity trackers.  The first component lists the trackers
registered during the call; any query error aborts New with that error and,
registration coming last, with no tracker registered. -/
def newTelemetryInit (q : StartupQueryResults) :
    List String × Except String NewServerModel :=
  match q.getSystemSettings with
  | Except.error e => ([], Except.error e)
  | Except.ok settings =>
    let telemetryID := settings "TelemetryID"
    let setResult : Except String Unit :=
      if telemetryID.length = 0 then q.setSystemSetting else Except.ok ()
    match setResult with
    | Except.error e => ([], Except.error e)
    | Except.ok _ =>
      match q.getRegisteredUserCount with
      | Except.error e => ([], Except.error e)
      | Except.ok r =>
        match q.getDailyActiveUsers with
        | Except.error e => ([], Except.error e)
        | Except.ok d =>
          match q.getWeeklyActiveUsers with
          | Except.error e => ([], Except.error e)
          | Except.ok w =>
            match q.getMonthlyActiveUsers with
            | Except.error e => ([], Except.error e)
            | Except.ok m =>
              (["server", "config", "activity"],
               Except.ok
                 { trackers := ["server", "config", "activity"]
                   activityCounts :=
                     { registeredUserCount := r
                       dailyActiveUsers := d
                       weeklyActiveUsers := w
                       monthlyActiveUsers := m } })

/-- The settings phase of New succeeded: GetSystemSettings returned, and
when the stored telemetry id was empty the SetSystemSetting write also
succeeded. -/
def settingsPhaseOk (q : StartupQueryResults) : Prop :=
  ∃ settings, q.getSystemSettings = Except.ok settings
    ∧ ((settings "TelemetryID").length = 0 → q.setSystemSetting = Except.ok ())

/-! ## Client-side optimistic mutator (modelled from the spec) -/

/-- A block snapshot as seen by the client: its id, the update_at ordering
key, and the remaining fields. -/
structure Block where
  id : String
  updateAt : Int
  fields : String
deriving DecidableEq, Repr

/-- Modelled from the spec: the client-side mutator is not under the
sources.  An event the client applies to its copy of a block: a local
optimistic edit (applied immediately, with a provisional update_at) or an
authoritative copy (direct write response or broadcast). -/
inductive ClientEvent where
  | localEdit (b : Block)
  | authoritative (b : Block)
deriving DecidableEq, Repr

/-- The block carried by a client event. -/
def ClientEvent.block : ClientEvent → Block
  | ClientEvent.localEdit b => b
  | ClientEvent.authoritative b => b

/-- Modelled from the spec: one step of the client mutator.  A local edit
mutates the in-memory copy immediately; an authoritative copy replaces the
local copy exactly when its update_at is greater than or equal to the
local one, and is discarded otherwise. -/
def clientStep (s : Block) : ClientEvent → Block
  | ClientEvent.localEdit b => b
  | ClientEvent.authoritative b => if s.updateAt ≤ b.updateAt then b else s

/-- The client-visible state after applying a sequence of events to the
initial copy s. -/
def clientRun (s : Block) (evs : List ClientEvent) : Block :=
  evs.foldl clientStep s

/-- A trace is fresh when every local optimistic edit carries a provisional
update_at at least the running maximum m of the initial copy and of all
earlier events — the local clock assigning provisional timestamps is not
behind any update_at already seen.  Authoritative events are
unconstrained. -/
inductive FreshTrace : Int → List ClientEvent → Prop
  | nil (m : Int) : FreshTrace m []
  | localEdit (m : Int) (b : Block) (evs : List ClientEvent) :
      m ≤ b.updateAt → FreshTrace (max m b.updateAt) evs →
      FreshTrace m (ClientEvent.localEdit b :: evs)
  | authoritative (m : Int) (b : Block) (evs : List ClientEvent) :
      FreshTrace (max m b.updateAt) evs →
      FreshTrace m (ClientEvent.authoritative b :: evs)

/-! ## Theorems -/

/-- Inversion of a fresh trace beginning with a local edit. -/
theorem freshTrace_cons_local {m : Int} {b : Block} {evs : List ClientEvent}
    (h : FreshTrace m (ClientEvent.localEdit b :: evs)) :
    m ≤ b.updateAt ∧ FreshTrace b.updateAt evs := by
  cases h with
  | localEdit _ _ _ hle hrest =>
    exact ⟨hle, by rwa [max_eq_right hle] at hrest⟩

/-- Inversion of a fresh trace beginning with an authoritative copy. -/
theorem freshTrace_cons_auth {m : Int} {b : Block} {evs : List ClientEvent}
    (h : FreshTrace m (ClientEvent.authoritative b :: evs)) :
    FreshTrace (max m b.updateAt) evs := by
  cases h with
  | authoritative _ _ _ hrest => exact hrest

/-- On a fresh trace, the final client state is one of the applied updates
(or the initial copy) and its update_at dominates them all. -/
theorem clientRun_mem_max (evs : List ClientEvent) : ∀ s : Block,
    FreshTrace s.updateAt evs →
    clientRun s evs ∈ s :: evs.map ClientEvent.block
    ∧ ∀ b ∈ s :: evs.map ClientEvent.block,
        b.updateAt ≤ (clientRun s evs).updateAt := by
  induction evs with
  | nil =>
    intro s _
    constructor
    · simp [clientRun]
    · intro b hb
      simp at hb
      simp [clientRun, hb]
  | cons e evs ih =>
    intro s h
    cases e with
    | localEdit b =>
      obtain ⟨hle, hrest⟩ := freshTrace_cons_local h
      obtain ⟨hmem, hbound⟩ := ih b hrest
      have hrun : clientRun s (ClientEvent.localEdit b :: evs)
          = clientRun b evs := rfl
      have hb := hbound b (List.mem_cons_self _ _)
      constructor
      · rw [hrun]
        simp only [List.map_cons, ClientEvent.block, List.mem_cons] at hmem ⊢
        tauto
      · intro c hc
        rw [hrun]
        simp only [List.map_cons, ClientEvent.block, List.mem_cons] at hc
        rcases hc with rfl | rfl | hc
        · omega
        · exact hb
        · exact hbound c (List.mem_cons_of_mem _ hc)
    | authoritative b =>
      have hrest := freshTrace_cons_auth h
      have hstep : (clientStep s (ClientEvent.authoritative b)).updateAt
          = max s.updateAt b.updateAt := by
        simp only [clientStep]
        split <;> omega
      rw [← hstep] at hrest
      obtain ⟨hmem, hbound⟩ := ih _ hrest
      have hrun : clientRun s (ClientEvent.authoritative b :: evs)
          = clientRun (clientStep s (ClientEvent.authoritative b)) evs := rfl
      have hcases : clientStep s (ClientEvent.authoritative b) = b
          ∨ clientStep s (ClientEvent.authoritative b) = s := by
        simp only [clientStep]
        split
        · exact Or.inl rfl
        · exact Or.inr rfl
      have hself := hbound _ (List.mem_cons_self _ _)
      rw [hstep] at hself
      constructor
      · rw [hrun]
        simp only [List.map_cons, ClientEvent.block, List.mem_cons] at hmem ⊢
        rcases hmem with h1 | h1
        · rcases hcases with h2 | h2
          · exact Or.inr (Or.inl (h1.trans h2))
          · exact Or.inl (h1.trans h2)
        · exact Or.inr (Or.inr h1)
      · intro c hc
        rw [hrun]
        have hl := le_max_left s.updateAt b.updateAt
        have hr := le_max_right s.updateAt b.updateAt
        simp only [List.map_cons, ClientEvent.block, List.mem_cons] at hc
        rcases hc with rfl | rfl | hc
        · omega
        · omega
        · exact hbound c (List.mem_cons_of_mem _ hc)

/-- C1: for every server configuration, the max_age passed to
store.CleanUpSessions equals the larger of the fixed 31-day floor and the
configured SessionExpireTime; in particular it is always at least
SessionExpireTime. -/
theorem cleanUpSessionsMaxAge_is_max (sessionExpireTime : Int) :
    cleanUpSessionsMaxAge sessionExpireTime
      = max sessionCleanupFloorSeconds sessionExpireTime
    ∧ sessionExpireTime ≤ cleanUpSessionsMaxAge sessionExpireTime := by
  constructor
  · unfold cleanUpSessionsMaxAge
    simp only []
    split
    · omega
    · omega
  · unfold cleanUpSessionsMaxAge
    simp only []
    split
    · omega
    · omega

/-- C4: CleanUpSessions deletes exactly the sessions whose age exceeds
max_age, leaves younger sessions unchanged, and is idempotent: an
immediately repeated run (same instant) deletes nothing further. -/
theorem cleanUpSessions_correct (now maxAge : Int) (sessions : List Session) :
    (∀ s : Session, s ∈ cleanUpSessions now maxAge sessions
        ↔ s ∈ sessions ∧ now - s.createAt ≤ maxAge)
    ∧ cleanUpSessions now maxAge (cleanUpSessions now maxAge sessions)
        = cleanUpSessions now maxAge sessions := by
  constructor
  · intro s
    simp [cleanUpSessions, List.mem_filter]
  · unfold cleanUpSessions
    rw [List.filter_filter]
    simp

/-- C9: a readonly KanbanCard renders no options menu (hence no Delete or
Duplicate entries), is not draggable, attaches no drag-and-drop ref, and
exposes no mutator action. -/
theorem kanbanCard_readonly_safe (p : KanbanCardProps) (isOver isDragging : Bool)
    (h : p.readonly = true) :
    (kanbanCard p isOver isDragging).optionsMenu = none
    ∧ (kanbanCard p isOver isDragging).draggable = false
    ∧ (kanbanCard p isOver isDragging).refAttached = false
    ∧ triggerableActions (kanbanCard p isOver isDragging) = [] := by
  refine ⟨?_, ?_, ?_, ?_⟩ <;> simp [kanbanCard, triggerableActions, h]

/-- Witness for C9 at a concrete readonly card. -/
theorem kanbanCard_readonly_safe_witness :
    ({ card := { id := "c1", title := "t", icon := "" }
       isSelected := false, readonly := true } : KanbanCardProps).readonly = true
    ∧ (kanbanCard
        { card := { id := "c1", title := "t", icon := "" }
          isSelected := false, readonly := true } false false).optionsMenu = none
    ∧ (kanbanCard
        { card := { id := "c1", title := "t", icon := "" }
          isSelected := false, readonly := true } false false).draggable = false
    ∧ (kanbanCard
        { card := { id := "c1", title := "t", icon := "" }
          isSelected := false, readonly := true } false false).refAttached = false
    ∧ triggerableActions (kanbanCard
        { card := { id := "c1", title := "t", icon := "" }
          isSelected := false, readonly := true } false false) = [] := by
  refine ⟨rfl, ?_⟩
  exact kanbanCard_readonly_safe
    { card := { id := "c1", title := "t", icon := "" }
      isSelected := false, readonly := true } false false rfl

/-- Every invocation of a recurring task begins no earlier than one full
interval after creation. -/
theorem interval_le_runStart (interval : Nat) (durations : Nat → Nat) (k : Nat) :
    interval ≤ runStart interval durations k := by
  induction k with
  | zero => simp [runStart]
  | succ k ih =>
    simp only [runStart]
    omega

/-- C3: when store.CleanUpSessions fails, the task body only logs the
error: it returns normally with the server state untouched and the error
message appended to the log, the error is not propagated (the body has no
error outcome), and the schedule of subsequent ticks is unchanged — the
next tick still follows one interval after the current run completes. -/
theorem cleanUpSessionsTaskFn_error_logged {σ : Type} (sessionExpireTime : Int)
    (storeCleanUp : Int → Except String Unit) (st : σ) (logs : List String)
    (e : String)
    (h : storeCleanUp (cleanUpSessionsMaxAge sessionExpireTime) = Except.error e) :
    cleanUpSessionsTaskFn sessionExpireTime storeCleanUp st logs
      = (st, logs ++ [sessionCleanupLogMessage])
    ∧ (cleanUpSessionsTaskFn sessionExpireTime storeCleanUp st logs).1 = st
    ∧ (∀ (interval : Nat) (durations : Nat → Nat) (k : Nat),
        runStart interval durations (k + 1)
          = runEnd interval durations k + interval) := by
  refine ⟨?_, ?_, ?_⟩
  · simp [cleanUpSessionsTaskFn, h]
  · simp [cleanUpSessionsTaskFn, h]
  · intro interval durations k
    simp [runStart, runEnd]

/-- Witness for C3 at a concrete failing store call. -/
theorem cleanUpSessionsTaskFn_error_logged_witness :
    (fun _ : Int => (Except.error "db down" : Except String Unit))
        (cleanUpSessionsMaxAge 0) = Except.error "db down"
    ∧ (cleanUpSessionsTaskFn 0
        (fun _ : Int => (Except.error "db down" : Except String Unit)) (7 : Nat) []
      = ((7 : Nat), [sessionCleanupLogMessage])
    ∧ (cleanUpSessionsTaskFn 0
        (fun _ : Int => (Except.error "db down" : Except String Unit)) (7 : Nat) []).1
        = (7 : Nat)
    ∧ (∀ (interval : Nat) (durations : Nat → Nat) (k : Nat),
        runStart interval durations (k + 1)
          = runEnd interval durations k + interval)) :=
  ⟨rfl, cleanUpSessionsTaskFn_error_logged 0
    (fun _ : Int => (Except.error "db down" : Except String Unit)) (7 : Nat) []
    "db down" rfl⟩

/-- C5: a recurring task cancelled before its first tick never executes its
fn; Cancel is idempotent; no invocation begins at or after the instant of
cancellation; applied to this server, if Shutdown cancels the
cleanUpSessions task before its 10-minute interval has elapsed after
Start, the session-cleanup fn never runs. -/
theorem recurringTask_cancel_before_first_tick (name : String) (interval : Nat)
    (durations : Nat → Nat) (c : Nat) :
    (c < interval →
      ∀ k, ¬ runExecutes (cancelTask (createRecurringTask name interval) c)
        durations k)
    ∧ (∀ (t : RecurringTask) (c' : Nat),
        cancelTask (cancelTask t c) c' = cancelTask t c)
    ∧ (∀ k, runExecutes (cancelTask (createRecurringTask name interval) c)
          durations k → runStart interval durations k < c)
    ∧ (c < cleanUpSessionsTaskInterval →
      ∀ k, ¬ runExecutes
        (cancelTask
          (createRecurringTask "cleanUpSessions" cleanUpSessionsTaskInterval) c)
        durations k) := by
  refine ⟨?_, ?_, ?_, ?_⟩
  · intro hc k h
    have h1 := interval_le_runStart interval durations k
    simp [runExecutes, cancelTask, createRecurringTask] at h
    omega
  · intro t c'
    cases ht : t.cancelledAt <;> simp [cancelTask, ht]
  · intro k h
    simpa [runExecutes, cancelTask, createRecurringTask] using h
  · intro hc k h
    have h1 := interval_le_runStart cleanUpSessionsTaskInterval durations k
    simp [runExecutes, cancelTask, createRecurringTask] at h
    omega

/-- Witness for C5 at interval 5, cancellation at instant 2. -/
theorem recurringTask_cancel_before_first_tick_witness :
    ((2 < 5 →
      ∀ k, ¬ runExecutes (cancelTask (createRecurringTask "t" 5) 2)
        (fun _ => 0) k)
    ∧ (∀ (t : RecurringTask) (c' : Nat),
        cancelTask (cancelTask t 2) c' = cancelTask t 2)
    ∧ (∀ k, runExecutes (cancelTask (createRecurringTask "t" 5) 2)
          (fun _ => 0) k → runStart 5 (fun _ => 0) k < 2)
    ∧ (2 < cleanUpSessionsTaskInterval →
      ∀ k, ¬ runExecutes
        (cancelTask
          (createRecurringTask "cleanUpSessions" cleanUpSessionsTaskInterval) 2)
        (fun _ => 0) k))
    ∧ ¬ runExecutes (cancelTask (createRecurringTask "t" 5) 2) (fun _ => 0) 0 :=
  ⟨recurringTask_cancel_before_first_tick "t" 5 (fun _ => 0) 2,
   (recurringTask_cancel_before_first_tick "t" 5 (fun _ => 0) 2).1
     (by decide) 0⟩

/-- C6: the first invocation of a recurring task begins exactly one full
interval after creation (so never immediately, when the interval is
positive), and each run completes before the next tick begins, so two
invocations of the same task never overlap. -/
theorem recurringTask_first_tick_and_no_overlap (interval : Nat)
    (durations : Nat → Nat) :
    runStart interval durations 0 = interval
    ∧ (0 < interval → 0 < runStart interval durations 0)
    ∧ (∀ k, runEnd interval durations k ≤ runStart interval durations (k + 1))
    ∧ (0 < interval →
        ∀ k, runEnd interval durations k < runStart interval durations (k + 1)) := by
  refine ⟨rfl, ?_, ?_, ?_⟩
  · intro h; simpa [runStart] using h
  · intro k; simp [runStart, runEnd]
  · intro h k; simp [runStart, runEnd]; omega

/-- Witness for C6 at interval 5 with unit run durations. -/
theorem recurringTask_first_tick_and_no_overlap_witness :
    runStart 5 (fun _ => 1) 0 = 5
    ∧ (0 < 5 → 0 < runStart 5 (fun _ => 1) 0)
    ∧ (∀ k, runEnd 5 (fun _ => 1) k ≤ runStart 5 (fun _ => 1) (k + 1))
    ∧ (0 < 5 →
        ∀ k, runEnd 5 (fun _ => 1) k < runStart 5 (fun _ => 1) (k + 1)) :=
  recurringTask_first_tick_and_no_overlap 5 (fun _ => 1)

/-- C7: the activity tracker registered during New always returns exactly
the four values read at startup: it yields the same result on every
invocation, that result depends only on the store states at the four
successive startup read instants (never on the store afterwards), and the
four reads are independently fresh — on a store that changes between reads
they need not form a single-instant snapshot. -/
theorem activityTracker_startup_values (store : Nat → AggregateCounts) :
    (∀ u : Unit, activityTracker store u = newStartupCounts store)
    ∧ (∀ s : Nat → AggregateCounts, (∀ i, i < 4 → store i = s i) →
        activityTracker store = activityTracker s)
    ∧ (∃ s : Nat → AggregateCounts, ∀ t, newStartupCounts s ≠ s t) := by
  refine ⟨fun _ => rfl, ?_, ?_⟩
  · intro s hagree
    funext u
    simp only [activityTracker, newStartupCounts,
      hagree 0 (by omega), hagree 1 (by omega), hagree 2 (by omega),
      hagree 3 (by omega)]
  · refine ⟨fun t => ⟨(t : Int), (t : Int), (t : Int), (t : Int)⟩, ?_⟩
    intro t h
    have h1 : ((0 : Nat) : Int) = (t : Int) :=
      congrArg AggregateCounts.registeredUserCount h
    have h2 : ((1 : Nat) : Int) = (t : Int) :=
      congrArg AggregateCounts.dailyActiveUsers h
    omega

/-- C8 counterexample: when the web server shutdown fails, Shutdown on a
server with no cleanup task returns early and does not shut down telemetry
or the store, contradicting the claim that it always still proceeds to do
both. -/
theorem serverShutdown_claim_counterexample :
    ¬ (ShutdownEvent.telemetryShutdown
        ∈ (serverShutdown (some "connection reset") none none).1
      ∧ ShutdownEvent.storeShutdown
        ∈ (serverShutdown (some "connection reset") none none).1) := by
  decide

/-- C8 (amended): for every Server whose session-cleanup task was never
created, Shutdown never dereferences a nil handle — the Cancel action is
performed only when the task handle is non-nil — and, provided the web
server shutdown returns no error, it still proceeds to shut down telemetry
and the store. -/
theorem serverShutdown_nil_task_safe (webServerErr storeErr : Option String) :
    ShutdownEvent.cancelCleanUpSessionsTask
        ∉ (serverShutdown webServerErr none storeErr).1
    ∧ (webServerErr = none →
        ShutdownEvent.telemetryShutdown
            ∈ (serverShutdown webServerErr none storeErr).1
        ∧ ShutdownEvent.storeShutdown
            ∈ (serverShutdown webServerErr none storeErr).1) := by
  cases webServerErr with
  | none => refine ⟨?_, fun _ => ⟨?_, ?_⟩⟩ <;> simp [serverShutdown]
  | some e =>
    refine ⟨?_, fun hcontra => ?_⟩
    · simp [serverShutdown]
    · cases hcontra

/-- Witness for C8 (amended) at a successful web server shutdown. -/
theorem serverShutdown_nil_task_safe_witness :
    ShutdownEvent.cancelCleanUpSessionsTask
        ∉ (serverShutdown none none none).1
    ∧ ((none : Option String) = none →
        ShutdownEvent.telemetryShutdown ∈ (serverShutdown none none none).1
        ∧ ShutdownEvent.storeShutdown ∈ (serverShutdown none none none).1) :=
  serverShutdown_nil_task_safe none none

/-- C10: if any startup query fails during New — GetSystemSettings, the
SetSystemSetting write for the telemetry id, or any of the four user-count
queries — New returns no server together with that error, and no telemetry
tracker is registered. -/
theorem newTelemetryInit_error_propagation (q : StartupQueryResults) :
    (∀ e, q.getSystemSettings = Except.error e →
        newTelemetryInit q = ([], Except.error e))
    ∧ (∀ settings e, q.getSystemSettings = Except.ok settings →
        (settings "TelemetryID").length = 0 →
        q.setSystemSetting = Except.error e →
        newTelemetryInit q = ([], Except.error e))
    ∧ (∀ e, settingsPhaseOk q → q.getRegisteredUserCount = Except.error e →
        newTelemetryInit q = ([], Except.error e))
    ∧ (∀ e r, settingsPhaseOk q → q.getRegisteredUserCount = Except.ok r →
        q.getDailyActiveUsers = Except.error e →
        newTelemetryInit q = ([], Except.error e))
    ∧ (∀ e r d, settingsPhaseOk q → q.getRegisteredUserCount = Except.ok r →
        q.getDailyActiveUsers = Except.ok d →
        q.getWeeklyActiveUsers = Except.error e →
        newTelemetryInit q = ([], Except.error e))
    ∧ (∀ e r d w, settingsPhaseOk q → q.getRegisteredUserCount = Except.ok r →
        q.getDailyActiveUsers = Except.ok d →
        q.getWeeklyActiveUsers = Except.ok w →
        q.getMonthlyActiveUsers = Except.error e →
        newTelemetryInit q = ([], Except.error e))
    ∧ (∀ e, (newTelemetryInit q).2 = Except.error e →
        (newTelemetryInit q).1 = []) := by
  have hphase : ∀ settings, q.getSystemSettings = Except.ok settings →
      ((settings "TelemetryID").length = 0 → q.setSystemSetting = Except.ok ()) →
      (if (settings "TelemetryID").length = 0 then q.setSystemSetting
        else Except.ok ()) = Except.ok () := by
    intro settings _ hset
    by_cases hid : (settings "TelemetryID").length = 0
    · simp [hid, hset hid]
    · simp [hid]
  refine ⟨?_, ?_, ?_, ?_, ?_, ?_, ?_⟩
  · intro e hs
    simp [newTelemetryInit, hs]
  · intro settings e hs hid hset
    simp [newTelemetryInit, hs, hid, hset]
  · intro e hphaseOk hreg
    obtain ⟨settings, hs, hset⟩ := hphaseOk
    simp [newTelemetryInit, hs, hphase settings hs hset, hreg]
  · intro e r hphaseOk hreg hd
    obtain ⟨settings, hs, hset⟩ := hphaseOk
    simp [newTelemetryInit, hs, hphase settings hs hset, hreg, hd]
  · intro e r d hphaseOk hreg hd hw
    obtain ⟨settings, hs, hset⟩ := hphaseOk
    simp [newTelemetryInit, hs, hphase settings hs hset, hreg, hd, hw]
  · intro e r d w hphaseOk hreg hd hw hm
    obtain ⟨settings, hs, hset⟩ := hphaseOk
    simp [newTelemetryInit, hs, hphase settings hs hset, hreg, hd, hw, hm]
  · intro e
    unfold newTelemetryInit
    repeat' split
    all_goals try simp
    all_goals (intro h; split at h <;> simp_all)

/-- Witness for C10 at a concrete failing GetSystemSettings query. -/
theorem newTelemetryInit_error_propagation_witness :
    ({ getSystemSettings := Except.error "db down"
       setSystemSetting := Except.ok ()
       getRegisteredUserCount := Except.ok 0
       getDailyActiveUsers := Except.ok 0
       getWeeklyActiveUsers := Except.ok 0
       getMonthlyActiveUsers := Except.ok 0 } :
        StartupQueryResults).getSystemSettings = Except.error "db down"
    ∧ newTelemetryInit
        { getSystemSettings := Except.error "db down"
          setSystemSetting := Except.ok ()
          getRegisteredUserCount := Except.ok 0
          getDailyActiveUsers := Except.ok 0
          getWeeklyActiveUsers := Except.ok 0
          getMonthlyActiveUsers := Except.ok 0 }
      = ([], Except.error "db down") :=
  ⟨rfl,
    (newTelemetryInit_error_propagation
      { getSystemSettings := Except.error "db down"
        setSystemSetting := Except.ok ()
        getRegisteredUserCount := Except.ok 0
        getDailyActiveUsers := Except.ok 0
        getWeeklyActiveUsers := Except.ok 0
        getMonthlyActiveUsers := Except.ok 0 }).1 "db down" rfl⟩

/-- C2 counterexample: the claim fails as stated for an arbitrary
interleaving: after an authoritative broadcast with update_at 200, a local
optimistic edit with the smaller provisional update_at 100 (a local clock
behind the server) is applied immediately and becomes the final
client-visible state, which is not the update with the greatest
update_at. -/
theorem clientRun_lww_counterexample :
    clientRun (Block.mk "b1" 0 "v0")
        [ClientEvent.authoritative (Block.mk "b1" 200 "srv"),
         ClientEvent.localEdit (Block.mk "b1" 100 "loc")]
      = Block.mk "b1" 100 "loc"
    ∧ (Block.mk "b1" 100 "loc").updateAt < (Block.mk "b1" 200 "srv").updateAt
    ∧ ClientEvent.authoritative (Block.mk "b1" 200 "srv")
        ∈ [ClientEvent.authoritative (Block.mk "b1" 200 "srv"),
           ClientEvent.localEdit (Block.mk "b1" 100 "loc")] := by
  refine ⟨rfl, by decide, by simp⟩

/-- C2 (amended): on every fresh interleaving of local optimistic edits
and authoritative broadcasts for the same block — fresh meaning each local
edit's provisional update_at is at least every update_at already seen —
the final client-visible state is one of the applied updates and carries
the greatest update_at of all of them (ties among equal update_at values
concern the same block id here); and an authoritative copy replaces the
local copy exactly when its update_at is greater than or equal to the
local provisional one, and is discarded otherwise. -/
theorem clientRun_lww (s : Block) (evs : List ClientEvent)
    (h : FreshTrace s.updateAt evs) :
    (clientRun s evs ∈ s :: evs.map ClientEvent.block
     ∧ ∀ b ∈ s :: evs.map ClientEvent.block,
         b.updateAt ≤ (clientRun s evs).updateAt)
    ∧ (∀ l a : Block, l.updateAt ≤ a.updateAt →
        clientStep l (ClientEvent.authoritative a) = a)
    ∧ (∀ l a : Block, a.updateAt < l.updateAt →
        clientStep l (ClientEvent.authoritative a) = l) := by
  refine ⟨clientRun_mem_max evs s h, ?_, ?_⟩
  · intro l a hla
    simp [clientStep, hla]
  · intro l a hla
    simp only [clientStep]
    rw [if_neg (by omega)]

/-- Witness for C2 (amended) on the scenario of the spec: initial copy at
update_at 100, a fresh local edit at 105, then the authoritative broadcast
at 105. -/
theorem clientRun_lww_witness :
    FreshTrace (Block.mk "b" 100 "x").updateAt
        [ClientEvent.localEdit (Block.mk "b" 105 "y"),
         ClientEvent.authoritative (Block.mk "b" 105 "z")]
    ∧ ((clientRun (Block.mk "b" 100 "x")
          [ClientEvent.localEdit (Block.mk "b" 105 "y"),
           ClientEvent.authoritative (Block.mk "b" 105 "z")]
        ∈ Block.mk "b" 100 "x"
          :: [ClientEvent.localEdit (Block.mk "b" 105 "y"),
              ClientEvent.authoritative (Block.mk "b" 105 "z")].map
                ClientEvent.block
       ∧ ∀ b ∈ Block.mk "b" 100 "x"
          :: [ClientEvent.localEdit (Block.mk "b" 105 "y"),
              ClientEvent.authoritative (Block.mk "b" 105 "z")].map
                ClientEvent.block,
          b.updateAt
            ≤ (clientRun (Block.mk "b" 100 "x")
                [ClientEvent.localEdit (Block.mk "b" 105 "y"),
                 ClientEvent.authoritative (Block.mk "b" 105 "z")]).updateAt)
      ∧ (∀ l a : Block, l.updateAt ≤ a.updateAt →
          clientStep l (ClientEvent.authoritative a) = a)
      ∧ (∀ l a : Block, a.updateAt < l.updateAt →
          clientStep l (ClientEvent.authoritative a) = l)) := by
  have hf : FreshTrace (Block.mk "b" 100 "x").updateAt
      [ClientEvent.localEdit (Block.mk "b" 105 "y"),
       ClientEvent.authoritative (Block.mk "b" 105 "z")] :=
    FreshTrace.localEdit _ _ _ (by decide)
      (FreshTrace.authoritative _ _ _ (FreshTrace.nil _))
  exact ⟨hf, clientRun_lww _ _ hf⟩

end Focalboard
